import Mathlib

/-!
Shallow embedding of the interview session engine of `interview.py`
(class `AIInterviewAgent` and its helpers).  Python strings are modelled
as Lean `String`; the string methods the code uses (`strip`, `split`,
`startswith`, `lower`, substring membership, `re.search` for a digit run)
are reimplemented structurally over `List Char`.  The Gemini backend
(`model.generate_content`) is modelled as an explicit oracle
`String → Option String` (`none` = the call raised), and `random.choice`
as an explicit `Nat` draw.  Timestamps (`datetime.now`) carry no logic the
engine depends on and are omitted from the state.  Prompt texts are kept
as string concatenations of the state fields; their exact wording carries
no engine logic (the spec declares prompt wording a non-goal), so the long
literal passages are abridged.
-/

/-- Python `c.isspace()` for the characters `str.strip` removes. -/
def isSpaceChar (c : Char) : Bool :=
  c = ' ' || c = '\t' || c = '\n' || c = '\r' || c = '\x0b' || c = '\x0c'

/-- Python `s.strip()` on a character list: drop whitespace at both ends. -/
def trimChars (l : List Char) : List Char :=
  ((l.dropWhile isSpaceChar).reverse.dropWhile isSpaceChar).reverse

/-- Python `s.split(c)` (single-character separator, no maxsplit). -/
def splitOnChar (sep : Char) : List Char → List (List Char)
  | [] => [[]]
  | c :: cs =>
    if c = sep then [] :: splitOnChar sep cs
    else
      match splitOnChar sep cs with
      | [] => [[c]]
      | l :: ls => (c :: l) :: ls

/-- Python `needle in haystack` (substring containment). -/
def containsSub (haystack needle : List Char) : Bool :=
  needle.isPrefixOf haystack ||
    match haystack with
    | [] => false
    | _ :: t => containsSub t needle

/-- Python `s.lower()` (ASCII case folding, as used on the experience text). -/
def lowerChars (l : List Char) : List Char := l.map Char.toLower

/-- Python `s.split(":", 1)[1]`: everything after the first colon
(`[]` when there is no colon; the code only reaches this on lines that
start with `STRENGTHS:` or `IMPROVEMENTS:`, which always have one). -/
def afterFirstColon : List Char → List Char
  | [] => []
  | c :: cs => if c = ':' then cs else afterFirstColon cs

/-- Python `re.search(r"\d+", line)`: the first maximal digit run, if any. -/
def firstDigitRun : List Char → Option (List Char)
  | [] => none
  | c :: cs =>
    if c.isDigit then some (c :: cs.takeWhile Char.isDigit)
    else firstDigitRun cs

/-- Python `int` on a digit string (most significant digit first). -/
def digitsToNat (l : List Char) : Nat :=
  l.foldl (fun acc c => acc * 10 + (c.toNat - 48)) 0

/-- `int(re.search(r"\d+", line).group())`, `none` when `re.search` finds
nothing (in the source that raises `AttributeError`, caught by the
surrounding `except`). -/
def firstNat (l : List Char) : Option Nat := (firstDigitRun l).map digitsToNat

/-- Case-insensitive substring test: `needle in s.lower()` with a lowercase
needle, as the difficulty mapping uses it. -/
def containsCI (s needle : String) : Bool :=
  containsSub (lowerChars s.data) needle.data

/-! ## Data model -/

/-- The dictionary `_parse_feedback` returns: score, strengths, improvements. -/
structure Evaluation where
  score : Nat
  strengths : String
  improvements : String
deriving DecidableEq, Repr

/-- One entry of `interview_data["answers_received"]`: question, answer and
(once `evaluate_answer` has run) the evaluation.  The `timestamp` field of
the source carries no engine logic and is omitted. -/
structure TurnRecord where
  question : String
  answer : String
  evaluation : Option Evaluation
deriving DecidableEq, Repr

/-- The `interview_state` dictionary set up in `AIInterviewAgent.__init__`. -/
structure InterviewState where
  current_phase : String
  question_count : Nat
  max_questions : Nat
  job_role : String
  candidate_name : Option String
  skills_to_assess : List String
  difficulty_level : String
  experience_text : String
deriving DecidableEq, Repr

/-- The agent's mutable state: `interview_state` plus the parts of
`interview_data` the engine reads or writes (`answers_received`, and
`overall_rating`, a key absent until `_generate_conclusion` stores it,
hence an `Option`).  `start_time`, `questions_asked` and `scores` are
never read by the operations under verification and are omitted. -/
structure AgentState where
  interview_state : InterviewState
  answers_received : List TurnRecord
  overall_rating : Option Rat
deriving DecidableEq, Repr

/-- The profile dictionary `onboard_candidate` returns. -/
structure CandidateProfile where
  name : String
  experience : String
  skills : List String
deriving DecidableEq, Repr

/-- The `type` field of the dictionaries `generate_next_question` returns. -/
inductive QType
  | introduction
  | behavioral
  | technical
deriving DecidableEq, Repr

/-- The two shapes of dictionary `generate_next_question` returns: the
conclusion marker (only `type` and `message` keys), or a produced question
(`question`, `type`, `question_number`, `total_questions`). -/
inductive NextQuestionResult
  | conclusionMarker (message : String)
  | questionOut (question : String) (qtype : QType)
      (question_number : Nat) (total_questions : Nat)
deriving DecidableEq, Repr

/-- The `type` of a produced question, `none` for the conclusion marker. -/
def NextQuestionResult.qtypeOf : NextQuestionResult → Option QType
  | .conclusionMarker _ => none
  | .questionOut _ t _ _ => some t

/-- The dictionary `_generate_conclusion` returns (its `type` key is the
constant `"conclusion"`). -/
structure ConclusionResult where
  message : String
  overall_score : Rat
deriving DecidableEq, Repr

/-! ## The agent's operations -/

/-- The state `AIInterviewAgent.__init__` sets up. -/
def initAgent : AgentState :=
  { interview_state :=
      { current_phase := "introduction"
        question_count := 0
        max_questions := 5
        job_role := "Frontend Developer"
        candidate_name := none
        skills_to_assess := []
        difficulty_level := "medium"
        experience_text := "" }
    answers_received := []
    overall_rating := none }

/-- `_call_gemini_api`: the backend oracle's answer, stripped; the fixed
apology when the call raised. -/
def call_gemini_api (api : String → Option String) (prompt : String) : String :=
  match api prompt with
  | some response => String.mk (trimChars response.data)
  | none => "Sorry, I encountered an error."

/-- The experience-to-difficulty chain of `initialize_adaptive_interview`
(lines 152-157), as the pure function of the experience text it is. -/
def difficultyFor (experience : String) : String :=
  if containsCI experience "fresher" then "Easy"
  else if containsCI experience "junior" then "Easy-to-Medium"
  else if containsCI experience "mid-level" then "Medium"
  else if containsCI experience "senior" then "Hard"
  else "Expert / Architectural"

/-- The prompt of `_generate_introduction` (text abridged; it embeds the
candidate name, role, experience, skills and max question count). -/
def introductionPrompt (s : AgentState) : String :=
  "Generate a warm, professional introduction for a candidate named "
    ++ (s.interview_state.candidate_name.getD "") ++ ". Role: "
    ++ s.interview_state.job_role ++ ". Stated Experience: "
    ++ s.interview_state.experience_text ++ ". Selected Skills: "
    ++ String.intercalate ", " s.interview_state.skills_to_assess
    ++ ". Structure: " ++ toString s.interview_state.max_questions ++ " questions."

/-- `_generate_introduction`. -/
def generate_introduction (api : String → Option String) (s : AgentState) : String :=
  call_gemini_api api (introductionPrompt s)

/-- `initialize_adaptive_interview`: binds the profile into the state,
computes the difficulty level, and returns the generated introduction. -/
def initialize_adaptive_interview (api : String → Option String)
    (profile : CandidateProfile) (s : AgentState) : AgentState × String :=
  let st := { s.interview_state with
    candidate_name := some profile.name
    skills_to_assess := profile.skills
    experience_text := profile.experience
    difficulty_level := difficultyFor profile.experience }
  let s' := { s with interview_state := st }
  (s', generate_introduction api s')

/-- The prompt of `_generate_technical_question` (text abridged; it embeds
role, experience, difficulty and the selected skill). -/
def technicalPrompt (s : AgentState) (selected_skill : String) : String :=
  "Generate a single, high-quality interview question for a "
    ++ s.interview_state.job_role ++ ". Experience Level: "
    ++ s.interview_state.experience_text ++ ", Stated Difficulty: "
    ++ s.interview_state.difficulty_level ++ ", Specific Skill to Test: "
    ++ selected_skill ++ ". Return ONLY the question itself."

/-- `_generate_technical_question`: `random.choice` over the skill list is
modelled by the explicit draw `rng` (index `rng % length`); the empty list
falls back to the generic skill label. -/
def generate_technical_question (rng : Nat) (api : String → Option String)
    (s : AgentState) : String :=
  let skills := s.interview_state.skills_to_assess
  let selected_skill :=
    if skills.isEmpty then "general software development"
    else skills.getD (rng % skills.length) ""
  call_gemini_api api (technicalPrompt s selected_skill)

/-- The prompt of `_generate_behavioral_question` (text abridged; it embeds
the fixed template, role and experience). -/
def behavioralPrompt (s : AgentState) : String :=
  "Refine the generic behavioral question \"Tell me about a challenging project you worked on.\" to be specific for a "
    ++ s.interview_state.job_role ++ " with "
    ++ s.interview_state.experience_text
    ++ " of experience. Return only the refined question."

/-- `_generate_behavioral_question`. -/
def generate_behavioral_question (api : String → Option String)
    (s : AgentState) : String :=
  call_gemini_api api (behavioralPrompt s)

/-- The fixed first question (`question_count == 0` branch of
`generate_next_question`). -/
def introQuestionText (s : AgentState) : String :=
  "Great, let's start. To begin, could you please tell me a bit about yourself and your journey as a "
    ++ s.interview_state.job_role ++ "?"

/-- `generate_next_question`: the conclusion marker once
`question_count >= max_questions` (no state change), otherwise the typed
question for the current count, then `question_count += 1`. -/
def generate_next_question (rng : Nat) (api : String → Option String)
    (s : AgentState) : AgentState × NextQuestionResult :=
  if s.interview_state.question_count ≥ s.interview_state.max_questions then
    (s, .conclusionMarker "Interview is complete.")
  else
    let qc := s.interview_state.question_count
    let question_type :=
      if qc = 0 then QType.introduction
      else if qc = 3 then QType.behavioral
      else QType.technical
    let question :=
      if qc = 0 then introQuestionText s
      else if question_type = QType.technical then generate_technical_question rng api s
      else generate_behavioral_question api s
    let s' := { s with interview_state :=
      { s.interview_state with question_count := qc + 1 } }
    (s', .questionOut question question_type (qc + 1) s.interview_state.max_questions)

/-- The loop body of `_parse_feedback`: process the lines in order over the
accumulating evaluation dictionary.  A `SCORE:` line with no digit run makes
`re.search` return `None`, `.group()` raise `AttributeError`, and the
`except` return the dictionary as accumulated so far — the abort branch. -/
def parseLines : List (List Char) → Evaluation → Evaluation
  | [], ev => ev
  | l :: ls, ev =>
    if ("SCORE:").data.isPrefixOf l then
      match firstNat l with
      | none => ev
      | some n => parseLines ls { ev with score := n }
    else if ("STRENGTHS:").data.isPrefixOf l then
      parseLines ls { ev with strengths := String.mk (trimChars (afterFirstColon l)) }
    else if ("IMPROVEMENTS:").data.isPrefixOf l then
      parseLines ls { ev with improvements := String.mk (trimChars (afterFirstColon l)) }
    else parseLines ls ev

/-- `_parse_feedback`: strip the response, split on newlines, run the line
loop over the default dictionary.  Total: every exception path of the
source returns the accumulated dictionary. -/
def parse_feedback (feedback : String) : Evaluation :=
  parseLines (splitOnChar '\n' (trimChars feedback.data)) ⟨0, "N/A", "N/A"⟩

/-- The prompt of `evaluate_answer` (text abridged; it embeds role,
experience, question and answer, and the three-line response contract). -/
def evaluationPrompt (s : AgentState) (question answer : String) : String :=
  "Evaluate a candidate's answer. Context: Role: "
    ++ s.interview_state.job_role ++ ", Experience: "
    ++ s.interview_state.experience_text ++ ". Question: \"" ++ question
    ++ "\". Candidate's Answer: \"" ++ answer
    ++ "\".\nSCORE: [A number from 1-10]\nSTRENGTHS: [one sentence]\nIMPROVEMENTS: [one sentence]"

/-- `evaluate_answer`: ask the backend for structured feedback and parse it.
Pure in the session state (the source mutates nothing here). -/
def evaluate_answer (api : String → Option String) (s : AgentState)
    (question answer : String) : Evaluation :=
  parse_feedback (call_gemini_api api (evaluationPrompt s question answer))

/-- The score list of `_generate_conclusion` (line 275): the scores of the
turns that carry an evaluation, in transcript order. -/
def transcriptScores (s : AgentState) : List Nat :=
  (s.answers_received.filterMap (·.evaluation)).map (·.score)

/-- The prompt of `_generate_conclusion` (text abridged; it embeds the
candidate name, role and the computed score — the `:.1f` decimal rendering
of the score is abstracted as `toString`). -/
def conclusionPrompt (s : AgentState) (overall_score : Rat) : String :=
  "Generate a professional conclusion for "
    ++ (s.interview_state.candidate_name.getD "") ++ ". The interview for the "
    ++ s.interview_state.job_role ++ " role is complete. Their score was "
    ++ toString overall_score ++ "/10. Thank them and end with an encouraging closing."

/-- `_generate_conclusion`: mean of the present scores (0 when none),
stored into `interview_data["overall_rating"]`, then one backend call for
the closing message. -/
def generate_conclusion (api : String → Option String)
    (s : AgentState) : AgentState × ConclusionResult :=
  let scores := transcriptScores s
  let overall_score : Rat :=
    if scores.isEmpty then 0 else (scores.sum : Rat) / (scores.length : Rat)
  let s' := { s with overall_rating := some overall_score }
  let conclusion_message := call_gemini_api api (conclusionPrompt s overall_score)
  (s', ⟨conclusion_message, overall_score⟩)

/-- `N` successive calls of `generate_next_question`, keeping only the
state (the caller's loop). -/
def iterateNextQuestion (rng : Nat) (api : String → Option String) :
    Nat → AgentState → AgentState
  | 0, s => s
  | n + 1, s => iterateNextQuestion rng api n (generate_next_question rng api s).1

/-! ## Helper lemmas -/

theorem isPrefixOf_append_self (a b : List Char) : a.isPrefixOf (a ++ b) = true := by
  induction a with
  | nil => simp [List.isPrefixOf]
  | cons c cs ih => simp [List.isPrefixOf, ih]

theorem takeWhile_eq_self_of_all {p : Char → Bool} {l : List Char}
    (h : ∀ c ∈ l, p c = true) : l.takeWhile p = l := by
  induction l with
  | nil => rfl
  | cons c cs ih =>
    simp only [List.takeWhile_cons, h c (by simp)]
    simp [ih fun x hx => h x (by simp [hx])]

theorem firstDigitRun_append {pre ds : List Char}
    (hpre : ∀ c ∈ pre, c.isDigit = false) (hds : ∀ c ∈ ds, c.isDigit = true)
    (hne : ds ≠ []) : firstDigitRun (pre ++ ds) = some ds := by
  induction pre with
  | nil =>
    cases ds with
    | nil => exact absurd rfl hne
    | cons d dd =>
      simp only [List.nil_append, firstDigitRun, hds d (by simp), if_pos]
      rw [takeWhile_eq_self_of_all fun c hc => hds c (by simp [hc])]
  | cons c cs ih =>
    simp only [List.cons_append, firstDigitRun, hpre c (by simp)]
    exact ih fun x hx => hpre x (by simp [hx])

theorem splitOnChar_cons_ne {sep c : Char} {l : List Char} (h : c ≠ sep) :
    splitOnChar sep (c :: l) =
      (c :: (splitOnChar sep l).headD []) :: (splitOnChar sep l).tail := by
  have hne : splitOnChar sep l ≠ [] := by
    induction l with
    | nil => simp [splitOnChar]
    | cons x xs ih =>
      simp only [splitOnChar]
      split
      · simp
      · cases hxs : splitOnChar sep xs with
        | nil => exact absurd hxs ih
        | cons y ys => simp
  simp only [splitOnChar, if_neg h]
  cases hl : splitOnChar sep l with
  | nil => exact absurd hl hne
  | cons y ys => simp

theorem isPrefixOf_append_of_le (n a b : List Char) (h : n.length ≤ a.length) :
    n.isPrefixOf (a ++ b) = n.isPrefixOf a := by
  induction n generalizing a with
  | nil => simp [List.isPrefixOf]
  | cons x xs ih =>
    cases a with
    | nil => simp at h
    | cons y ys =>
      simp only [List.cons_append, List.isPrefixOf]
      rw [show ys.append b = ys ++ b from rfl, ih ys (by simpa using h)]

theorem afterFirstColon_append (a b : List Char) (h : ∀ c ∈ a, c ≠ ':') :
    afterFirstColon (a ++ ':' :: b) = b := by
  induction a with
  | nil => simp [afterFirstColon]
  | cons c cs ih =>
    simp only [List.cons_append, afterFirstColon, if_neg (h c (by simp))]
    exact ih fun x hx => h x (by simp [hx])

theorem trimChars_cons_space (t : List Char) : trimChars (' ' :: t) = trimChars t := by
  simp [trimChars, List.dropWhile_cons, isSpaceChar]

theorem parseLines_score_of_no_parse (ls : List (List Char)) (ev : Evaluation)
    (h : ∀ l ∈ ls, ("SCORE:").data.isPrefixOf l = true → firstNat l = none) :
    (parseLines ls ev).score = ev.score := by
  induction ls generalizing ev with
  | nil => rfl
  | cons l ls ih =>
    simp only [parseLines]
    split
    · next h1 => rw [h l (by simp) h1]
    · split
      · exact ih _ fun x hx => h x (by simp [hx])
      · split
        · exact ih _ fun x hx => h x (by simp [hx])
        · exact ih _ fun x hx => h x (by simp [hx])

theorem parseLines_strengths_of_absent (ls : List (List Char)) (ev : Evaluation)
    (h : ∀ l ∈ ls, ("STRENGTHS:").data.isPrefixOf l = false) :
    (parseLines ls ev).strengths = ev.strengths := by
  induction ls generalizing ev with
  | nil => rfl
  | cons l ls ih =>
    simp only [parseLines]
    split
    · split
      · rfl
      · exact ih _ fun x hx => h x (by simp [hx])
    · split
      · next h1 => exact absurd (h l (by simp)) (by simp [h1])
      · split
        · exact ih _ fun x hx => h x (by simp [hx])
        · exact ih _ fun x hx => h x (by simp [hx])

theorem parseLines_improvements_of_absent (ls : List (List Char)) (ev : Evaluation)
    (h : ∀ l ∈ ls, ("IMPROVEMENTS:").data.isPrefixOf l = false) :
    (parseLines ls ev).improvements = ev.improvements := by
  induction ls generalizing ev with
  | nil => rfl
  | cons l ls ih =>
    simp only [parseLines]
    split
    · split
      · rfl
      · exact ih _ fun x hx => h x (by simp [hx])
    · split
      · exact ih _ fun x hx => h x (by simp [hx])
      · split
        · next h1 => exact absurd (h l (by simp)) (by simp [h1])
        · exact ih _ fun x hx => h x (by simp [hx])

theorem parseLines_score_cases (ls : List (List Char)) (ev : Evaluation) :
    (parseLines ls ev).score = ev.score ∨
      ∃ l ∈ ls, ("SCORE:").data.isPrefixOf l = true ∧
        firstNat l = some (parseLines ls ev).score := by
  induction ls generalizing ev with
  | nil => exact Or.inl rfl
  | cons l ls ih =>
    simp only [parseLines]
    split
    · next h1 =>
      split
      · exact Or.inl rfl
      · next n hn =>
        rcases ih { ev with score := n } with h2 | ⟨l', hl', h3, h4⟩
        · exact Or.inr ⟨l, by simp, h1, by rw [h2, hn]⟩
        · exact Or.inr ⟨l', by simp [hl'], h3, h4⟩
    · split
      · rcases ih { ev with strengths := _ } with h2 | ⟨l', hl', h3, h4⟩
        · exact Or.inl h2
        · exact Or.inr ⟨l', by simp [hl'], h3, h4⟩
      · split
        · rcases ih { ev with improvements := _ } with h2 | ⟨l', hl', h3, h4⟩
          · exact Or.inl h2
          · exact Or.inr ⟨l', by simp [hl'], h3, h4⟩
        · rcases ih ev with h2 | ⟨l', hl', h3, h4⟩
          · exact Or.inl h2
          · exact Or.inr ⟨l', by simp [hl'], h3, h4⟩

/-! ## Claim theorems -/

/-- C8: a feedback response conforming to the three-line contract parses to
exactly the advertised fields: the score is the (all-digit) integer on the
`SCORE:` line, and the two text fields are the substring after the first
colon of their lines, trimmed.  The claim's concrete instance
`"SCORE: 7\nSTRENGTHS: Clear\nIMPROVEMENTS: Depth"` is the witness. -/
theorem C8_parse_conforming (fb : String) (ds t i : List Char)
    (hsplit : splitOnChar '\n' (trimChars fb.data) =
      [("SCORE: ").data ++ ds, ("STRENGTHS: ").data ++ t, ("IMPROVEMENTS: ").data ++ i])
    (hds : ds ≠ []) (hdig : ∀ c ∈ ds, c.isDigit = true) :
    parse_feedback fb =
      ⟨digitsToNat ds, String.mk (trimChars t), String.mk (trimChars i)⟩ := by
  unfold parse_feedback
  rw [hsplit]
  have hp1 : ("SCORE:").data.isPrefixOf (("SCORE: ").data ++ ds) = true :=
    isPrefixOf_append_self ("SCORE:").data (' ' :: ds)
  have hf1 : firstNat (("SCORE: ").data ++ ds) = some (digitsToNat ds) := by
    unfold firstNat
    rw [firstDigitRun_append (by decide) hdig hds]
    rfl
  have hp2 : ("SCORE:").data.isPrefixOf (("STRENGTHS: ").data ++ t) = false := by
    rw [isPrefixOf_append_of_le _ _ _ (by decide)]; decide
  have hp2' : ("STRENGTHS:").data.isPrefixOf (("STRENGTHS: ").data ++ t) = true :=
    isPrefixOf_append_self ("STRENGTHS:").data (' ' :: t)
  have ha2 : afterFirstColon (("STRENGTHS: ").data ++ t) = ' ' :: t :=
    afterFirstColon_append ("STRENGTHS").data (' ' :: t) (by decide)
  have hp3 : ("SCORE:").data.isPrefixOf (("IMPROVEMENTS: ").data ++ i) = false := by
    rw [isPrefixOf_append_of_le _ _ _ (by decide)]; decide
  have hp3' : ("STRENGTHS:").data.isPrefixOf (("IMPROVEMENTS: ").data ++ i) = false := by
    rw [isPrefixOf_append_of_le _ _ _ (by decide)]; decide
  have hp3'' : ("IMPROVEMENTS:").data.isPrefixOf (("IMPROVEMENTS: ").data ++ i) = true :=
    isPrefixOf_append_self ("IMPROVEMENTS:").data (' ' :: i)
  have ha3 : afterFirstColon (("IMPROVEMENTS: ").data ++ i) = ' ' :: i :=
    afterFirstColon_append ("IMPROVEMENTS").data (' ' :: i) (by decide)
  simp only [parseLines, hp1, hf1, hp2, hp2', ha2, hp3, hp3', hp3'', ha3,
    trimChars_cons_space, if_true, if_false]
  simp

/-- C8 witness: the claim's own concrete input. -/
theorem C8_parse_conforming_witness :
    parse_feedback "SCORE: 7\nSTRENGTHS: Clear\nIMPROVEMENTS: Depth" =
      ⟨7, "Clear", "Depth"⟩ :=
  C8_parse_conforming _ ("7").data ("Clear").data ("Depth").data
    (by decide) (by decide) (by decide)

/-- C9: `_parse_feedback` is total on every feedback string (the source's
`except` path, modelled as the abort branch of `parseLines`, still returns
the accumulated record, so nothing is raised to the caller); a field whose
line is missing — or, for the score, whose `SCORE:` lines carry no digits —
keeps its documented default (`0`, `"N/A"`, `"N/A"`); concretely, the
fallback apology string, which has no `SCORE:` line, parses to all three
defaults. -/
theorem C9_parse_defaults :
    (∀ fb : String,
      ((∀ l ∈ splitOnChar '\n' (trimChars fb.data),
          ("SCORE:").data.isPrefixOf l = true → firstNat l = none) →
        (parse_feedback fb).score = 0) ∧
      ((∀ l ∈ splitOnChar '\n' (trimChars fb.data),
          ("STRENGTHS:").data.isPrefixOf l = false) →
        (parse_feedback fb).strengths = "N/A") ∧
      ((∀ l ∈ splitOnChar '\n' (trimChars fb.data),
          ("IMPROVEMENTS:").data.isPrefixOf l = false) →
        (parse_feedback fb).improvements = "N/A")) ∧
    parse_feedback "Sorry, I encountered an error." = ⟨0, "N/A", "N/A"⟩ := by
  refine ⟨fun fb => ⟨fun h => ?_, fun h => ?_, fun h => ?_⟩, by decide⟩
  · exact parseLines_score_of_no_parse _ _ h
  · exact parseLines_strengths_of_absent _ _ h
  · exact parseLines_improvements_of_absent _ _ h

/-- C4 (amended): a score produced by `evaluate_answer` is either `0`
(no parseable `SCORE:` line) or the first integer found on some `SCORE:`
line of the backend's response; the parser does not clamp the value to the
1-10 band the prompt asks for, so out-of-band scores occur whenever the
backend emits them. -/
theorem C4_score_origin :
    (∀ fb : String, (parse_feedback fb).score = 0 ∨
      ∃ l ∈ splitOnChar '\n' (trimChars fb.data),
        ("SCORE:").data.isPrefixOf l = true ∧
          firstNat l = some (parse_feedback fb).score) ∧
    (∀ (api : String → Option String) (s : AgentState) (q a : String),
      evaluate_answer api s q a =
        parse_feedback (call_gemini_api api (evaluationPrompt s q a))) :=
  ⟨fun _ => parseLines_score_cases _ _, fun _ _ _ _ => rfl⟩

/-- C4 counterexample: a backend response whose `SCORE:` line reads 42
makes `evaluate_answer` return score 42, which is neither in 1..10 nor 0 —
the claim that no other score value can occur is false. -/
theorem C4_counterexample_score_42 :
    (evaluate_answer (fun _ => some "SCORE: 42\nSTRENGTHS: s\nIMPROVEMENTS: i")
        initAgent "q" "a").score = 42 ∧
    ¬ ((1 ≤ (evaluate_answer (fun _ => some "SCORE: 42\nSTRENGTHS: s\nIMPROVEMENTS: i")
        initAgent "q" "a").score ∧
      (evaluate_answer (fun _ => some "SCORE: 42\nSTRENGTHS: s\nIMPROVEMENTS: i")
        initAgent "q" "a").score ≤ 10) ∨
      (evaluate_answer (fun _ => some "SCORE: 42\nSTRENGTHS: s\nIMPROVEMENTS: i")
        initAgent "q" "a").score = 0) := by
  decide

theorem generate_next_question_at_max (rng : Nat) (api : String → Option String)
    (s : AgentState)
    (h : s.interview_state.max_questions ≤ s.interview_state.question_count) :
    generate_next_question rng api s =
      (s, .conclusionMarker "Interview is complete.") := by
  unfold generate_next_question
  rw [if_pos h]

theorem generate_next_question_qc (rng : Nat) (api : String → Option String)
    (s : AgentState)
    (h : s.interview_state.question_count < s.interview_state.max_questions) :
    (generate_next_question rng api s).1.interview_state.question_count =
      s.interview_state.question_count + 1 := by
  unfold generate_next_question
  rw [if_neg (by omega)]

theorem generate_next_question_mq (rng : Nat) (api : String → Option String)
    (s : AgentState) :
    (generate_next_question rng api s).1.interview_state.max_questions =
      s.interview_state.max_questions := by
  unfold generate_next_question
  split <;> rfl

theorem iterate_qc_le (rng : Nat) (api : String → Option String) :
    ∀ (n : Nat) (s : AgentState),
      s.interview_state.question_count ≤ s.interview_state.max_questions →
      (iterateNextQuestion rng api n s).interview_state.question_count =
        min (s.interview_state.question_count + n) s.interview_state.max_questions := by
  intro n
  induction n with
  | zero => intro s h; simp only [iterateNextQuestion]; omega
  | succ n ih =>
    intro s h
    by_cases hlt : s.interview_state.question_count < s.interview_state.max_questions
    · have h1 := generate_next_question_qc rng api s hlt
      have h2 := generate_next_question_mq rng api s
      have h3 := ih (generate_next_question rng api s).1 (by rw [h1, h2]; omega)
      rw [iterateNextQuestion, h3, h1, h2]
      omega
    · rw [iterateNextQuestion, generate_next_question_at_max rng api s (by omega)]
      show (iterateNextQuestion rng api n s).interview_state.question_count = _
      rw [ih s h]
      omega

/-- C5: starting from a fresh session (`questionCount = 0`), after `N`
calls of `generate_next_question` the count is `min N maxQuestions`; a
call made at `questionCount >= maxQuestions` returns the conclusion marker
and leaves the state untouched, and a call made below the cap increments
the count by exactly one. -/
theorem C5_question_count_min (rng : Nat) (api : String → Option String)
    (N : Nat) (s : AgentState) (h : s.interview_state.question_count = 0) :
    (iterateNextQuestion rng api N s).interview_state.question_count =
      min N s.interview_state.max_questions ∧
    (∀ s' : AgentState,
      s'.interview_state.max_questions ≤ s'.interview_state.question_count →
      generate_next_question rng api s' =
        (s', .conclusionMarker "Interview is complete.")) ∧
    (∀ s' : AgentState,
      s'.interview_state.question_count < s'.interview_state.max_questions →
      (generate_next_question rng api s').1.interview_state.question_count =
        s'.interview_state.question_count + 1) := by
  refine ⟨?_, fun s' h' => generate_next_question_at_max rng api s' h',
    fun s' h' => generate_next_question_qc rng api s' h'⟩
  have h3 := iterate_qc_le rng api N s (by omega)
  rw [h3, h]
  simp

/-- C5 witness: seven calls on a fresh session stop the count at
`maxQuestions` (= 5 here), i.e. at `min 7 5`. -/
theorem C5_question_count_min_witness :
    (iterateNextQuestion 0 (fun _ => some "ok") 7 initAgent).interview_state.question_count =
      min 7 initAgent.interview_state.max_questions :=
  (C5_question_count_min 0 (fun _ => some "ok") 7 initAgent rfl).1

/-- C6: the difficulty mapping is the total, deterministic, case-insensitive
substring chain of the source — "fresher" before "junior" before "mid-level"
before "senior", everything else (descriptors with "lead"/"principal"
included) falling to the architectural band (rendered
`"Expert / Architectural"` in the source) — it always lands in one of the
five labels, `initialize_adaptive_interview` computes it from the profile's
experience text, and neither question generation nor conclusion changes it
afterwards. -/
theorem C6_difficulty_mapping (e : String) :
    (containsCI e "fresher" = true → difficultyFor e = "Easy") ∧
    (containsCI e "fresher" = false → containsCI e "junior" = true →
      difficultyFor e = "Easy-to-Medium") ∧
    (containsCI e "fresher" = false → containsCI e "junior" = false →
      containsCI e "mid-level" = true → difficultyFor e = "Medium") ∧
    (containsCI e "fresher" = false → containsCI e "junior" = false →
      containsCI e "mid-level" = false → containsCI e "senior" = true →
      difficultyFor e = "Hard") ∧
    (containsCI e "fresher" = false → containsCI e "junior" = false →
      containsCI e "mid-level" = false → containsCI e "senior" = false →
      difficultyFor e = "Expert / Architectural") ∧
    (difficultyFor e = "Easy" ∨ difficultyFor e = "Easy-to-Medium" ∨
      difficultyFor e = "Medium" ∨ difficultyFor e = "Hard" ∨
      difficultyFor e = "Expert / Architectural") ∧
    difficultyFor "Lead/Principal (8+ years)" = "Expert / Architectural" ∧
    (∀ (api : String → Option String) (p : CandidateProfile) (s : AgentState),
      (initialize_adaptive_interview api p s).1.interview_state.difficulty_level =
        difficultyFor p.experience) ∧
    (∀ (rng : Nat) (api : String → Option String) (s : AgentState),
      (generate_next_question rng api s).1.interview_state.difficulty_level =
        s.interview_state.difficulty_level) ∧
    (∀ (api : String → Option String) (s : AgentState),
      (generate_conclusion api s).1.interview_state.difficulty_level =
        s.interview_state.difficulty_level) := by
  refine ⟨fun h1 => by simp [difficultyFor, h1],
    fun h1 h2 => by simp [difficultyFor, h1, h2],
    fun h1 h2 h3 => by simp [difficultyFor, h1, h2, h3],
    fun h1 h2 h3 h4 => by simp [difficultyFor, h1, h2, h3, h4],
    fun h1 h2 h3 h4 => by simp [difficultyFor, h1, h2, h3, h4],
    ?_, by decide, fun _ _ _ => rfl, ?_, fun _ _ => rfl⟩
  · unfold difficultyFor
    split_ifs <;> simp
  · intro rng api s
    unfold generate_next_question
    split <;> rfl

/-- C6 witness: the onboarding band label "Senior (5-8 years)" resolves to
"Hard" through the mapping. -/
theorem C6_difficulty_mapping_witness :
    difficultyFor "Senior (5-8 years)" = "Hard" :=
  (C6_difficulty_mapping "Senior (5-8 years)").2.2.2.1
    (by decide) (by decide) (by decide) (by decide)

/-- C7: the conclusion's overall rating is the arithmetic mean of the
scores of the turns that carry an evaluation (`rating * count = sum` in
the nonempty case), is `0` when no turn is scored, is stored on the
session as `overall_rating`, and evaluates to exactly 8 on scores
`[6, 8, 10]`. -/
theorem C7_overall_rating_mean :
    (∀ (api : String → Option String) (s : AgentState),
      (transcriptScores s = [] → (generate_conclusion api s).2.overall_score = 0) ∧
      (transcriptScores s ≠ [] →
        (generate_conclusion api s).2.overall_score * ((transcriptScores s).length : Rat) =
          ((transcriptScores s).sum : Rat)) ∧
      (generate_conclusion api s).1.overall_rating =
        some (generate_conclusion api s).2.overall_score) ∧
    (generate_conclusion (fun _ => some "ok")
        { initAgent with answers_received :=
            [⟨"q1", "a1", some ⟨6, "s", "i"⟩⟩,
             ⟨"q2", "a2", some ⟨8, "s", "i"⟩⟩,
             ⟨"q3", "a3", some ⟨10, "s", "i"⟩⟩] }).2.overall_score = 8 := by
  refine ⟨fun api s => ⟨fun h => ?_, fun h => ?_, rfl⟩, ?_⟩
  · simp [generate_conclusion, h]
  · have hlen : ((transcriptScores s).length : Rat) ≠ 0 := by
      simpa [List.length_eq_zero] using h
    simp only [generate_conclusion, List.isEmpty_iff, if_neg h]
    exact div_mul_cancel₀ _ hlen
  · simp [generate_conclusion, transcriptScores]
    norm_num

/-- C10: `_generate_conclusion` computes and stores the overall rating
before the backend call, so with a failing backend the returned record
still carries the same overall score as with any backend, the stored
rating equals the returned score, and only the message degrades to the
fixed apology string. -/
theorem C10_rating_survives_backend_failure (s : AgentState) :
    (generate_conclusion (fun _ => none) s).2.message = "Sorry, I encountered an error." ∧
    (generate_conclusion (fun _ => none) s).1.overall_rating =
      some ((generate_conclusion (fun _ => none) s).2.overall_score) ∧
    ∀ api : String → Option String,
      (generate_conclusion api s).2.overall_score =
        (generate_conclusion (fun _ => none) s).2.overall_score ∧
      (generate_conclusion api s).1 = (generate_conclusion (fun _ => none) s).1 :=
  ⟨rfl, rfl, fun _ => ⟨rfl, rfl⟩⟩

/-- C1 (amended): for a session in progress, the question at
`questionCount = 0` has type introduction, the one at `questionCount = 3`
has type behavioral, and every other position — position 7 included,
whatever `maxQuestions` is — has type technical: the source has no special
behavioral case at `questionCount = 7`. -/
theorem C1_question_type_policy (rng : Nat) (api : String → Option String)
    (s : AgentState)
    (h : s.interview_state.question_count < s.interview_state.max_questions) :
    (generate_next_question rng api s).2.qtypeOf =
      some (if s.interview_state.question_count = 0 then QType.introduction
        else if s.interview_state.question_count = 3 then QType.behavioral
        else QType.technical) := by
  unfold generate_next_question
  rw [if_neg (by omega)]
  rfl

/-- C1 witness: at `questionCount = 3` (below the cap) the produced
question is behavioral. -/
theorem C1_question_type_policy_witness :
    (generate_next_question 0 (fun _ => some "ok")
        { initAgent with interview_state :=
            { initAgent.interview_state with question_count := 3 } }).2.qtypeOf =
      some QType.behavioral :=
  C1_question_type_policy 0 (fun _ => some "ok") _ (by decide)

/-- C1 counterexample: in a session in progress with `maxQuestions = 10 > 7`
and `questionCount = 7`, the produced question has type technical, not the
behavioral type the claim asserts for that position. -/
theorem C1_counterexample_technical_at_seven :
    (generate_next_question 0 (fun _ => some "ok")
        { initAgent with interview_state :=
            { initAgent.interview_state with
                question_count := 7, max_questions := 10 } }).2.qtypeOf =
      some QType.technical ∧
    (10 : Nat) > 7 ∧ some QType.technical ≠ some QType.behavioral := by
  exact ⟨rfl, by norm_num, by decide⟩

/-- C2 (amended): `maxQuestions` is the constant 5 for every session —
inside the 5..10 band, but fixed, not drawn at random — set by `__init__`
and changed by no later operation (`initialize_adaptive_interview`,
`generate_next_question` and `_generate_conclusion` all preserve it). -/
theorem C2_max_questions_constant_five :
    (∀ (api : String → Option String) (p : CandidateProfile),
      ((initialize_adaptive_interview api p initAgent).1).interview_state.max_questions = 5 ∧
      5 ≤ ((initialize_adaptive_interview api p initAgent).1).interview_state.max_questions ∧
      ((initialize_adaptive_interview api p initAgent).1).interview_state.max_questions ≤ 10) ∧
    (∀ (api : String → Option String) (p : CandidateProfile) (s : AgentState),
      (initialize_adaptive_interview api p s).1.interview_state.max_questions =
        s.interview_state.max_questions) ∧
    (∀ (rng : Nat) (api : String → Option String) (s : AgentState),
      (generate_next_question rng api s).1.interview_state.max_questions =
        s.interview_state.max_questions) ∧
    (∀ (api : String → Option String) (s : AgentState),
      (generate_conclusion api s).1.interview_state.max_questions =
        s.interview_state.max_questions) :=
  ⟨fun _ _ => ⟨rfl, Nat.le_refl 5, show (5 : Nat) ≤ 10 by norm_num⟩,
    fun _ _ _ => rfl,
    fun rng api s => generate_next_question_mq rng api s,
    fun _ _ => rfl⟩

/-- C2 counterexample: no two sessions can differ in `maxQuestions` — the
constructor draws nothing at random, it always writes 5, so the claimed
randomized per-session target that "can differ between sessions" is false. -/
theorem C2_counterexample_no_variation :
    ¬ ∃ (a₁ a₂ : String → Option String) (p₁ p₂ : CandidateProfile),
      ((initialize_adaptive_interview a₁ p₁ initAgent).1).interview_state.max_questions ≠
        ((initialize_adaptive_interview a₂ p₂ initAgent).1).interview_state.max_questions := by
  rintro ⟨a₁, a₂, p₁, p₂, h⟩
  exact h rfl

/-- C3 (amended): `_generate_conclusion` filters nothing and has no
empty-log short-circuit: its message is always the backend's (stripped)
output — or the fixed apology on failure — whatever the transcript, and a
turn whose question contains "tell me about yourself" still contributes
its score to the rating (a session whose only turn is that question gets
its score, 7 here, as the overall rating). -/
theorem C3_conclusion_unfiltered (s : AgentState) (r : String) :
    (generate_conclusion (fun _ => some r) s).2.message = String.mk (trimChars r.data) ∧
    (generate_conclusion (fun _ => none) s).2.message = "Sorry, I encountered an error." ∧
    (generate_conclusion (fun _ => some "ok")
        { initAgent with answers_received :=
            [⟨"Tell me about yourself", "ans", some ⟨7, "s", "i"⟩⟩] }).2.overall_score = 7 := by
  refine ⟨rfl, rfl, ?_⟩
  simp [generate_conclusion, transcriptScores]

/-- C3 counterexample: on a session whose only turn is the introduction
question, the conclusion message tracks the text-generation backend's
output (two different backends give two different messages), so
`_generate_conclusion` does invoke the backend and returns no fixed
"nothing to report" message. -/
theorem C3_counterexample_backend_invoked :
    (generate_conclusion (fun _ => some "ALPHA")
        { initAgent with answers_received :=
            [⟨"Tell me about yourself", "ans", some ⟨7, "s", "i"⟩⟩] }).2.message = "ALPHA" ∧
    (generate_conclusion (fun _ => some "BETA")
        { initAgent with answers_received :=
            [⟨"Tell me about yourself", "ans", some ⟨7, "s", "i"⟩⟩] }).2.message = "BETA" ∧
    ("ALPHA" : String) ≠ "BETA" :=
  ⟨rfl, rfl, by decide⟩

/-- C9 witness: the fixed apology string — no `SCORE:`, `STRENGTHS:` or
`IMPROVEMENTS:` line — parses to the three documented defaults. -/
theorem C9_parse_defaults_witness :
    parse_feedback "Sorry, I encountered an error." = ⟨0, "N/A", "N/A"⟩ :=
  C9_parse_defaults.2

/-- C10 witness: on the fresh session with a failing backend the message
is the fixed apology. -/
theorem C10_rating_survives_backend_failure_witness :
    (generate_conclusion (fun _ => none) initAgent).2.message =
      "Sorry, I encountered an error." :=
  (C10_rating_survives_backend_failure initAgent).1
